import Mathlib

set_option linter.unusedVariables false

/-!
Verification of the RAG proxy server ("Shadows Fate AI" backend).

The repository contains four copy-paste variants of the same Express
handler:
* `V1` : first section of `server.js` (no sanitizer type guard,
  404 on empty retrieval, generic 500 catch);
* `V2` : second section of `server.js` (typeof guard, 404 on empty
  retrieval, generic 500 catch);
* `V3` : third section of `server.js` (typeof guard, empty-context
  fallback on empty retrieval, explicit embedding check, error
  classifier switch in the catch block);
* `V4` : `src/unnamed/part_001` (sanitizer imported from
  `src/unnamed/part_000`, `callGemini` swallows generation errors).

Strings are modelled as `List Char` pipelines wrapped into `String`;
JavaScript machine numbers inside embedding vectors are never inspected
by the code, so vector elements are modelled as `Int`.
-/

/-! ## Character classes of the regular expressions -/

/-- JavaScript's `\s` class (also the set `String.prototype.trim` strips):
space, `\t`, `\n`, `\v`, `\f`, `\r`, NBSP, Ogham space mark, the
U+2000–U+200A range, line/paragraph separator, narrow NBSP, medium
mathematical space, ideographic space and BOM. -/
def jsWhitespace (c : Char) : Bool :=
  c == ' ' || c == '\t' || c == '\n' || c == '\x0b' || c == '\x0c' || c == '\r' ||
  c.toNat == 0xa0 || c.toNat == 0x1680 ||
  (Nat.ble 0x2000 c.toNat && Nat.ble c.toNat 0x200a) ||
  c.toNat == 0x2028 || c.toNat == 0x2029 || c.toNat == 0x202f ||
  c.toNat == 0x205f || c.toNat == 0x3000 || c.toNat == 0xfeff

/-- `a-z` or `A-Z` (the regexes are ASCII-only). -/
def isAsciiLetter (c : Char) : Bool :=
  (Nat.ble 65 c.toNat && Nat.ble c.toNat 90) || (Nat.ble 97 c.toNat && Nat.ble c.toNat 122)

/-- `0-9`. -/
def isAsciiDigit (c : Char) : Bool :=
  Nat.ble 48 c.toNat && Nat.ble c.toNat 57

/-- JavaScript's `\w`: ASCII letters, digits and underscore. -/
def isWordChar (c : Char) : Bool :=
  isAsciiLetter c || isAsciiDigit c || c == '_'

/-- The nine characters of `server.js`'s class `[{}[\]();<>]` (step 2 of
`sanitizeInput` there). -/
def structural9 (c : Char) : Bool :=
  c == '\x7b' || c == '\x7d' || c == '[' || c == ']' ||
  c == '(' || c == ')' || c == ';' || c == '<' || c == '>'

/-- The seven characters of `part_000`'s class `[{}[\]();]` (step 2 of the
`sanitizeInput` exported by `src/unnamed/part_000`; note it misses `<` and
`>`). -/
def structural7 (c : Char) : Bool :=
  c == '\x7b' || c == '\x7d' || c == '[' || c == ']' ||
  c == '(' || c == ')' || c == ';'

/-- The punctuation kept by `server.js`'s step 3 class `[^a-zA-Z0-9\s.,!?'-]`. -/
def punctAllowed (c : Char) : Bool :=
  c == '.' || c == ',' || c == '!' || c == '?' || c == '\x27' || c == '-'

/-- The allow-set of `server.js`'s `sanitizeInput` step 3
(`[a-zA-Z0-9\s.,!?'-]`; everything outside it is deleted). -/
def serverAllow (c : Char) : Bool :=
  isAsciiLetter c || isAsciiDigit c || jsWhitespace c || punctAllowed c

/-- The allow-set of `part_000`'s `sanitizeInput` step 3
(`[^ \w\s.,!'-]` replaced by a space, so the kept set is
space, `\w`, `\s`, `.`, `,`, `!`, `'`, `-`; note: no `?`, but `_` via `\w`). -/
def v0Allow (c : Char) : Bool :=
  c == ' ' || isWordChar c || jsWhitespace c ||
  c == '.' || c == ',' || c == '!' || c == '\x27' || c == '-'

/-- Modelled from the spec: the allow-set named by the spec,
"{letters, digits, whitespace, `. , ! ? ' -`}" (ASCII letters and digits;
whitespace read as the JS whitespace class the regexes use). Used to
compare the spec's sentence with the two sanitizer implementations. -/
def claimAllow (c : Char) : Bool :=
  isAsciiLetter c || isAsciiDigit c || jsWhitespace c || punctAllowed c

/-- JavaScript line terminators (the characters the regex `.` does not
match when the `s` flag is absent). -/
def jsLineTerminator (c : Char) : Bool :=
  c == '\n' || c == '\r' || c.toNat == 0x2028 || c.toNat == 0x2029

/-! ## The tag-stripping regex passes -/

/-- `server.js` step 1: global replace of `/<[^>]*>?/gm` by `""`.
At each `<` the match consumes every following non-`>` character and then
a `>` if present; the state flag records being inside such a match. -/
def stripTagsGo : Bool → List Char → List Char
  | _, [] => []
  | true, c :: cs => if c == '>' then stripTagsGo false cs else stripTagsGo true cs
  | false, c :: cs => if c == '<' then stripTagsGo true cs else c :: stripTagsGo false cs

/-- `server.js` step 1 entry point. -/
def stripTags (l : List Char) : List Char := stripTagsGo false l

/-- Lookahead for `part_000` step 1 (`/<.*?>/g`, no `s` flag): from the
position after a `<`, the number of characters through the first `>`,
or `none` when a line terminator (which `.` cannot match) or the end of
input comes first. -/
def findTagLen : List Char → Option Nat
  | [] => none
  | c :: cs =>
    if c == '>' then some 1
    else if jsLineTerminator c then none
    else (findTagLen cs).map (· + 1)

/-- Scanner for `part_000` step 1 (global replace of `/<.*?>/g` by `""`;
lazy match, `.` not matching line terminators). The counter holds how many
characters of a successfully matched tag remain to be consumed; at a `<`
with a reachable `>` the lookahead length is loaded into the counter, a
`<` with no reachable `>` is kept and scanning resumes at the next
character. -/
def stripTagsLazyGo : Nat → List Char → List Char
  | _ + 1, [] => []
  | k + 1, _ :: cs => stripTagsLazyGo k cs
  | 0, [] => []
  | 0, c :: cs =>
    if c == '<' then
      match findTagLen cs with
      | some n => stripTagsLazyGo n cs
      | none => c :: stripTagsLazyGo 0 cs
    else c :: stripTagsLazyGo 0 cs

/-- `part_000` step 1 entry point. -/
def stripTagsLazy (l : List Char) : List Char := stripTagsLazyGo 0 l

/-! ## Trim and the sanitizers -/

/-- JavaScript `String.prototype.trim`: drop leading and trailing
whitespace. -/
def trimList (l : List Char) : List Char :=
  ((l.dropWhile jsWhitespace).reverse.dropWhile jsWhitespace).reverse

/-- The pipeline of `sanitizeInput` in `server.js` (identical in all
three sections of that file):
`.replace(/<[^>]*>?/gm, "")`, `.replace(/[{}[\]();<>]/g, "")`,
`.replace(/[^a-zA-Z0-9\s.,!?'-]/g, "")`, `.trim()`. -/
def sanitizeList (l : List Char) : List Char :=
  trimList (((stripTags l).filter (fun c => !structural9 c)).filter serverAllow)

/-- `sanitizeInput` of `server.js` on a string argument. -/
def sanitizeInput (s : String) : String := ⟨sanitizeList s.data⟩

/-- The pipeline of `sanitizeInput` in `src/unnamed/part_000`:
`.replace(/<.*?>/g, "")`, `.replace(/[{}[\]();]/g, "")`,
`.replace(/[^ \w\s.,!'-]/g, " ")` (a space, not deletion), `.trim()`. -/
def sanitizeListV0 (l : List Char) : List Char :=
  trimList (((stripTagsLazy l).filter (fun c => !structural7 c)).map
    (fun c => if v0Allow c then c else ' '))

/-- `sanitizeInput` of `src/unnamed/part_000` on a string argument. -/
def sanitizeInputV0 (s : String) : String := ⟨sanitizeListV0 s.data⟩

/-! ## JavaScript request values and outcomes of the upstream calls -/

/-- The JSON body field `req.body.query` as a JavaScript value: a string,
a number, `null` or `undefined` (the shapes the spec's claims quantify
over; every non-string constructor lacks a `replace` method and is not of
`typeof ... === "string"`). -/
inductive JsInput where
  | str (s : String)
  | num (n : Int)
  | jsNull
  | jsUndef
deriving DecidableEq

/-- JavaScript truthiness of a `JsInput` (`""`, `0`, `null` and
`undefined` are falsy). -/
def jsTruthy : JsInput → Bool
  | .str s => !(s == "")
  | .num n => !(n == 0)
  | .jsNull => false
  | .jsUndef => false

/-- `req.body.query || ""` as used by the V1, V2 and V4 handlers. -/
def jsOrEmpty (v : JsInput) : JsInput :=
  if jsTruthy v then v else .str ""

/-- `sanitizeInput` of `server.js` section 1 (no `typeof` guard) applied
to a JavaScript value: calling `.replace` on a non-string throws a
`TypeError`, modelled as `Except.error` carrying the V8 error message. -/
def sanitizeInputV1js : JsInput → Except String String
  | .str s => .ok (sanitizeInput s)
  | .num _ => .error "text.replace is not a function"
  | .jsNull => .error "Cannot read properties of null (reading 'replace')"
  | .jsUndef => .error "Cannot read properties of undefined (reading 'replace')"

/-- `sanitizeInput` of `server.js` sections 2 and 3: the
`if (typeof text !== 'string') return "";` guard makes it total. -/
def sanitizeInputGuarded : JsInput → String
  | .str s => sanitizeInput s
  | _ => ""

/-- `sanitizeInput` of `src/unnamed/part_000` applied to a JavaScript
value (no guard, same `TypeError` behaviour as the V1 copy). -/
def sanitizeInputV0js : JsInput → Except String String
  | .str s => .ok (sanitizeInputV0 s)
  | .num _ => .error "text.replace is not a function"
  | .jsNull => .error "Cannot read properties of null (reading 'replace')"
  | .jsUndef => .error "Cannot read properties of undefined (reading 'replace')"

/-- Result of awaiting an upstream call: a value, or a thrown error
carrying `err.message`. -/
inductive JsOutcome (α : Type) where
  | ok (val : α)
  | thrown (msg : String)
deriving DecidableEq

/-- The `values` field extracted from an embedding-provider response, as
a JavaScript value: an array (elements opaque to the code, modelled as
`Int`), a present non-array value, or `undefined`. -/
inductive EmbedValues where
  | arr (xs : List Int)
  | nonArray
  | absent
deriving DecidableEq

/-- V3's validity check `Array.isArray(queryEmbedding) && queryEmbedding.length > 0`. -/
def validEmbedding : EmbedValues → Bool
  | .arr xs => !(xs.length == 0)
  | _ => false

/-- A retrieved document as the handlers use it after `$project`
(`title`, `text` in V1/V2, `content` in V3, and the similarity score;
`d.score.toFixed(2)` renders a float, which the claims never inspect, so
the rendered text is carried directly). -/
structure DocR where
  title : String := ""
  text : String := ""
  content : String := ""
  scoreText : String := ""
deriving DecidableEq

/-- An HTTP response: status code and the JSON body's string fields. -/
structure HttpResponse where
  status : Nat
  body : List (String × String)
deriving DecidableEq

/-- What one request did: the response, the text sent to the embedding
call, the `queryVector` handed to `$vectorSearch` (when the search ran),
and the prompt handed to the generation call (when it ran). -/
structure HandlerTrace where
  resp : HttpResponse
  embedSent : Option String := none
  searchVector : Option EmbedValues := none
  promptSent : Option String := none
deriving DecidableEq

/-! ## The JSON machinery of V3's catch block -/

/-- `pat` is a prefix of `l`. -/
def listStartsWith : List Char → List Char → Bool
  | [], _ => true
  | _ :: _, [] => false
  | p :: ps, c :: cs => p == c && listStartsWith ps cs

/-- `pat` occurs as a contiguous run somewhere in `l`. -/
def listInfix (pat : List Char) : List Char → Bool
  | [] => listStartsWith pat []
  | c :: cs => listStartsWith pat (c :: cs) || listInfix pat cs

/-- `pat` appears as a substring: JavaScript `String.prototype.includes`. -/
def jsIncludes (s pat : String) : Bool :=
  listInfix pat.data s.data

/-- The match of `/(\{.*?\})/s` (lazy, dot-all): from the first `\x7b`
through the first following `\x7d`, or `none` when there is no such pair.
This is the `errorJsonMatch[0]` of V3's catch block. -/
def lazyBraceMatch (l : List Char) : Option (List Char) :=
  match l.dropWhile (fun c => !(c == '\x7b')) with
  | [] => none
  | _ :: rest =>
    if rest.any (fun c => c == '\x7d') then
      some ('\x7b' :: (rest.takeWhile (fun c => !(c == '\x7d')) ++ ['\x7d']))
    else none

/-- A parsed JSON value (numbers kept as their lexed text: the handler
never uses numeric values). -/
inductive Json where
  | jnull
  | jtrue
  | jfalse
  | jnum (digits : String)
  | jstr (s : String)
  | jarr (elems : List Json)
  | jobj (fields : List (String × Json))

/-- The whitespace `JSON.parse` skips. -/
def jsonWs (c : Char) : Bool :=
  c == ' ' || c == '\t' || c == '\n' || c == '\r'

/-- Characters the (lenient) number lexer accepts. -/
def jsonNumChar (c : Char) : Bool :=
  isAsciiDigit c || c == '-' || c == '+' || c == '.' || c == 'e' || c == 'E'

/-- One escape character after a backslash in a JSON string
(`\u` escapes are not modelled; none of the payloads concerned use them). -/
def jsonEsc : Char → Option Char
  | '"' => some '"'
  | '\\' => some '\\'
  | '/' => some '/'
  | 'b' => some '\x08'
  | 'f' => some '\x0c'
  | 'n' => some '\n'
  | 'r' => some '\r'
  | 't' => some '\t'
  | _ => none

/-- Body of a JSON string literal, after the opening quote. -/
def parseStringBody (fuel : Nat) (l : List Char) : Option (String × List Char) :=
  match fuel with
  | 0 => none
  | fuel + 1 =>
    match l with
    | [] => none
    | c :: cs =>
      if c == '"' then some ("", cs)
      else if c == '\\' then
        match cs with
        | [] => none
        | e :: cs2 =>
          match jsonEsc e with
          | none => none
          | some ec => (parseStringBody fuel cs2).map (fun p => (⟨ec :: p.1.data⟩, p.2))
      else (parseStringBody fuel cs).map (fun p => (⟨c :: p.1.data⟩, p.2))

mutual

/-- A JSON value (modelling `JSON.parse`; `none` is a thrown
`SyntaxError`). -/
def parseValue (fuel : Nat) (l : List Char) : Option (Json × List Char) :=
  match fuel with
  | 0 => none
  | fuel + 1 =>
    let l1 := l.dropWhile jsonWs
    match l1 with
    | [] => none
    | c :: cs =>
      if c == '"' then (parseStringBody fuel cs).map (fun p => (Json.jstr p.1, p.2))
      else if c == '\x7b' then parseObj fuel cs
      else if c == '[' then parseArr fuel cs
      else if l1.take 4 == ['n', 'u', 'l', 'l'] then some (Json.jnull, l1.drop 4)
      else if l1.take 4 == ['t', 'r', 'u', 'e'] then some (Json.jtrue, l1.drop 4)
      else if l1.take 5 == ['f', 'a', 'l', 's', 'e'] then some (Json.jfalse, l1.drop 5)
      else
        let digits := l1.takeWhile jsonNumChar
        if digits.isEmpty then none
        else some (Json.jnum ⟨digits⟩, l1.drop digits.length)

/-- A JSON object, after the opening brace. -/
def parseObj (fuel : Nat) (l : List Char) : Option (Json × List Char) :=
  match fuel with
  | 0 => none
  | fuel + 1 =>
    match l.dropWhile jsonWs with
    | [] => none
    | c :: cs =>
      if c == '\x7d' then some (Json.jobj [], cs)
      else parseMembers fuel (l.dropWhile jsonWs) []

/-- The members of a JSON object (at least one), up to the closing
brace. -/
def parseMembers (fuel : Nat) (l : List Char) (acc : List (String × Json)) :
    Option (Json × List Char) :=
  match fuel with
  | 0 => none
  | fuel + 1 =>
    match l.dropWhile jsonWs with
    | [] => none
    | c :: cs =>
      if c == '"' then
        match parseStringBody fuel cs with
        | none => none
        | some (key, r1) =>
          match r1.dropWhile jsonWs with
          | [] => none
          | c2 :: cs2 =>
            if c2 == ':' then
              match parseValue fuel cs2 with
              | none => none
              | some (v, r3) =>
                match r3.dropWhile jsonWs with
                | [] => none
                | c3 :: cs3 =>
                  if c3 == ',' then parseMembers fuel cs3 (acc ++ [(key, v)])
                  else if c3 == '\x7d' then some (Json.jobj (acc ++ [(key, v)]), cs3)
                  else none
            else none
      else none

/-- A JSON array, after the opening bracket. -/
def parseArr (fuel : Nat) (l : List Char) : Option (Json × List Char) :=
  match fuel with
  | 0 => none
  | fuel + 1 =>
    match l.dropWhile jsonWs with
    | [] => none
    | c :: cs =>
      if c == ']' then some (Json.jarr [], cs)
      else parseElems fuel (l.dropWhile jsonWs) []

/-- The elements of a JSON array (at least one), up to the closing
bracket. -/
def parseElems (fuel : Nat) (l : List Char) (acc : List Json) :
    Option (Json × List Char) :=
  match fuel with
  | 0 => none
  | fuel + 1 =>
    match parseValue fuel l with
    | none => none
    | some (v, r1) =>
      match r1.dropWhile jsonWs with
      | [] => none
      | c :: cs =>
        if c == ',' then parseElems fuel cs (acc ++ [v])
        else if c == ']' then some (Json.jarr (acc ++ [v]), cs)
        else none

end

/-- `JSON.parse`: the whole input must be one value, up to trailing
whitespace. -/
def jsonParse (s : String) : Option Json :=
  match parseValue (4 * s.data.length + 16) s.data with
  | some (v, rest) => if (rest.dropWhile jsonWs).isEmpty then some v else none
  | none => none

/-- Property lookup on a parsed JSON object (`JSON.parse` keeps the last
of duplicate keys). -/
def lookupField (fs : List (String × Json)) (k : String) : Option Json :=
  List.lookup k fs.reverse

/-- `apiError.error?.status` restricted to the string results the switch
can match (`undefined`, `null` and non-strings all fall to the default
branch, collapsed to `none`). -/
def getErrorStatus : Json → Option String
  | Json.jobj fields =>
    match lookupField fields "error" with
    | some (Json.jobj efields) =>
      match lookupField efields "status" with
      | some (Json.jstr s) => some s
      | _ => none
    | _ => none
  | _ => none

/-- V3's catch-block extraction of `apiStatus` from `err.message`:
match `/(\{.*?\})/s`, `JSON.parse` the match (a parse failure is caught
and leaves `null`), then `apiError.error?.status`. -/
def extractApiStatus (msg : String) : Option String :=
  match lazyBraceMatch msg.data with
  | none => none
  | some jl =>
    match jsonParse ⟨jl⟩ with
    | none => none
    | some j => getErrorStatus j

/-! ## V3's error classifier (the catch block's switch) -/

/-- The default branch of V3's switch: manually thrown embedding or
generation failures get the internal-processing 500, everything else the
generic 500. -/
def classifyV3default (msg : String) : HttpResponse :=
  if jsIncludes msg "Embedding failed" || jsIncludes msg "Failed to generate content" then
    ⟨500, [("error", "Internal AI Processing Failure"),
           ("message", "Please contact the server administrator with screenshot.")]⟩
  else
    ⟨500, [("error", "Internal Server Error"),
           ("message", "An unexpected error occurred. Please try your query again after a short delay.")]⟩

/-- V3's catch block: extract `apiStatus` from `err.message` and switch
on it. -/
def classifyV3 (msg : String) : HttpResponse :=
  match extractApiStatus msg with
  | some s =>
    if s == "RESOURCE_EXHAUSTED" || s == "UNAVAILABLE" then
      ⟨429, [("error", "Service Capacity Reached"),
             ("message", "The AI service is currently overloaded. Please try your query again in a few moments.")]⟩
    else if s == "INVALID_ARGUMENT" then
      ⟨400, [("error", "Invalid Request Content"),
             ("message", "The AI service rejected the prompt due to invalid format or safety concerns. Please refine your query.")]⟩
    else if s == "PERMISSION_DENIED" || s == "UNAUTHENTICATED" then
      ⟨403, [("error", "Server Configuration Error"),
             ("message", "Authentication failed.")]⟩
    else classifyV3default msg
  | none => classifyV3default msg

/-- The message V3 throws when the embedding check fails. -/
def embedFailMsg : String :=
  "Embedding failed: the response contained an empty or invalid embedding vector. Please check the raw response above for API error messages."

/-- The message V3 throws when `genResp.text` is falsy. -/
def genFailMsg : String := "Failed to generate content: no text in response"

/-! ## Context rendering and prompt templates -/

/-- V1: `docs.map((d, i) => `(${i + 1}) ${d.text}`).join("\n\n")`. -/
def contextV1 (docs : List DocR) : String :=
  String.intercalate "\n\n" (List.mapIdx (fun i d => "(" ++ toString (i + 1) ++ ") " ++ d.text) docs)

/-- V2: `Source ${i + 1} (Score: ${d.score.toFixed(2)}): ${d.text}`,
joined by blank lines. -/
def contextV2 (docs : List DocR) : String :=
  String.intercalate "\n\n"
    (List.mapIdx
      (fun i d => "Source " ++ toString (i + 1) ++ " (Score: " ++ d.scoreText ++ "): " ++ d.text)
      docs)

/-- V3: as V2 but on the `content` field. -/
def contextV3 (docs : List DocR) : String :=
  String.intercalate "\n\n"
    (List.mapIdx
      (fun i d => "Source " ++ toString (i + 1) ++ " (Score: " ++ d.scoreText ++ "): " ++ d.content)
      docs)

/-- V1's `ragPrompt` template literal. -/
def ragPromptV1 (context userQuery : String) : String :=
  "\nYou are a lore and gameplay expert of the Shadow Fight series.\nUse ONLY the following context to answer the user\x27s question accurately.\n\nContext:\n"
  ++ context
  ++ "\n\nUser question:\n\"" ++ userQuery
  ++ "\"\n\nYour answer must be:\n- Well formatted in Markdown (with bold headings, bullet points, and paragraphs)\n- Informative but concise\n- Never hallucinate or invent facts\n"

/-- V2's `ragPrompt` template literal. -/
def ragPromptV2 (context userQuery : String) : String :=
  "\nYou are a helpful expert on the Shadow Fight game series.\nYour task is to answer the user\x27s question based *only* on the context provided below.\nDo not use any outside knowledge. If the context does not contain the answer, say so.\n\n**Context:**\n---\n"
  ++ context
  ++ "\n---\n\n**User Question:**\n\"" ++ userQuery
  ++ "\"\n\n**Your Answer:**\n(Provide a clear, concise answer in Markdown format, citing sources if helpful, e.g., \"According to Source 1...\")\n"

/-- V3's `ragPrompt` template literal (indentation of the source template
preserved). -/
def ragPromptV3 (context userQuery : String) : String :=
  "\n      You are a Shadow Fight expert assistant. Use the retrieved context as your factual base.\n      Follow this reasoning pipeline:\n      1. **Extract Key Facts**\n        - Summarize only the relevant details from the provided context\n        - Do NOT hallucinate anything not present\n\n      2. **Deep Reasoning**\n        - understand what user is trying to get & answer that with more explainantion with the given context\n        - Use step-by-step logic\n        - Make deductions even if not directly stated, but ONLY from the given info\n\n      3. **Final Answer (Clean & User-Friendly)**\n        - Provide a formatted, readable answer\n        - Include bullet points, highlights where useful\n        - Avoid showing your reasoning steps\n        - Avoid words like based on context instead say from my knowledge\n      **Context:**\n      ---\n      "
  ++ context
  ++ "\n      ---\n\n      **User Question:**\n      \"" ++ userQuery ++ "\"\n      "

/-- V4's `prompt` template literal. -/
def ragPromptV4 (context query : String) : String :=
  "You are an AI assistant answering based on Shadow Fight knowledge base.\nContext:\n"
  ++ context ++ "\n\nUser: " ++ query ++ "\nAnswer clearly and in a formatted way."

/-! ## The four `POST /query` handlers -/

/-- The 500 body V1 and V2 send from their catch blocks. -/
def err500generic : HttpResponse :=
  ⟨500, [("error", "An error occurred while processing the query.")]⟩

/-- The V1 handler (`server.js`, first section). The three upstream
outcomes are the values/exceptions of the awaited calls; the embedding
response is the destructured `embedding` property (`none` models a
response without it, in which case `embedding.values` throws). Generated
text is returned as-is, empty or not. -/
def handlerV1 (q : JsInput) (embedOutcome : JsOutcome (Option EmbedValues))
    (searchOutcome : JsOutcome (List DocR)) (genOutcome : JsOutcome String) : HandlerTrace :=
  match sanitizeInputV1js (jsOrEmpty q) with
  | .error _ => { resp := err500generic }
  | .ok userQuery =>
    if userQuery == "" then { resp := ⟨400, [("error", "Empty query.")]⟩ }
    else
      match embedOutcome with
      | .thrown _ => { resp := err500generic, embedSent := some userQuery }
      | .ok none => { resp := err500generic, embedSent := some userQuery }
      | .ok (some ev) =>
        match searchOutcome with
        | .thrown _ =>
          { resp := err500generic, embedSent := some userQuery, searchVector := some ev }
        | .ok docs =>
          if docs.length == 0 then
            { resp := ⟨404, [("response", "No relevant information found.")]⟩,
              embedSent := some userQuery, searchVector := some ev }
          else
            match genOutcome with
            | .thrown _ =>
              { resp := err500generic, embedSent := some userQuery, searchVector := some ev,
                promptSent := some (ragPromptV1 (contextV1 docs) userQuery) }
            | .ok t =>
              { resp := ⟨200, [("response", t)]⟩, embedSent := some userQuery,
                searchVector := some ev,
                promptSent := some (ragPromptV1 (contextV1 docs) userQuery) }

/-- The V2 handler (`server.js`, second section): as V1 but with the
guarded sanitizer, the other 404 message and the V2 prompt. -/
def handlerV2 (q : JsInput) (embedOutcome : JsOutcome (Option EmbedValues))
    (searchOutcome : JsOutcome (List DocR)) (genOutcome : JsOutcome String) : HandlerTrace :=
  let userQuery := sanitizeInputGuarded (jsOrEmpty q)
  if userQuery == "" then { resp := ⟨400, [("error", "Empty query.")]⟩ }
  else
    match embedOutcome with
    | .thrown _ => { resp := err500generic, embedSent := some userQuery }
    | .ok none => { resp := err500generic, embedSent := some userQuery }
    | .ok (some ev) =>
      match searchOutcome with
      | .thrown _ =>
        { resp := err500generic, embedSent := some userQuery, searchVector := some ev }
      | .ok docs =>
        if docs.length == 0 then
          { resp := ⟨404, [("response", "I couldn\x27t find any relevant information for that query.")]⟩,
            embedSent := some userQuery, searchVector := some ev }
        else
          match genOutcome with
          | .thrown _ =>
            { resp := err500generic, embedSent := some userQuery, searchVector := some ev,
              promptSent := some (ragPromptV2 (contextV2 docs) userQuery) }
          | .ok t =>
            { resp := ⟨200, [("response", t)]⟩, embedSent := some userQuery,
              searchVector := some ev,
              promptSent := some (ragPromptV2 (contextV2 docs) userQuery) }

/-- The V3 handler (`server.js`, third section): guarded sanitizer
applied to `req.body.query` with no `|| ""` fallback, explicit
`Array.isArray`/length check on `embedResp.embeddings?.[0]?.values`,
empty context when the search returns no documents, a throw when
`genResp.text` is falsy, and every thrown error classified by
`classifyV3`. -/
def handlerV3 (q : JsInput) (embedOutcome : JsOutcome EmbedValues)
    (searchOutcome : JsOutcome (List DocR)) (genOutcome : JsOutcome (Option String)) :
    HandlerTrace :=
  let userQuery := sanitizeInputGuarded q
  if userQuery == "" then { resp := ⟨400, [("error", "Empty query.")]⟩ }
  else
    match embedOutcome with
    | .thrown m => { resp := classifyV3 m, embedSent := some userQuery }
    | .ok ev =>
      if validEmbedding ev then
        match searchOutcome with
        | .thrown m =>
          { resp := classifyV3 m, embedSent := some userQuery, searchVector := some ev }
        | .ok docs =>
          let context := if docs.length == 0 then "" else contextV3 docs
          let prompt := ragPromptV3 context userQuery
          match genOutcome with
          | .thrown m =>
            { resp := classifyV3 m, embedSent := some userQuery, searchVector := some ev,
              promptSent := some prompt }
          | .ok none =>
            { resp := classifyV3 genFailMsg, embedSent := some userQuery,
              searchVector := some ev, promptSent := some prompt }
          | .ok (some t) =>
            if t == "" then
              { resp := classifyV3 genFailMsg, embedSent := some userQuery,
                searchVector := some ev, promptSent := some prompt }
            else
              { resp := ⟨200, [("response", t)]⟩, embedSent := some userQuery,
                searchVector := some ev, promptSent := some prompt }
      else { resp := classifyV3 embedFailMsg, embedSent := some userQuery }

/-- V4's `embedText`: the raw axios response's `embedding` property
(`none` when missing, making `response.data.embedding.values` throw);
any error inside is caught and rethrown as `"Failed to create
embedding."`; a present `values` is returned unchecked. -/
def embedTextV4 : JsOutcome (Option EmbedValues) → JsOutcome EmbedValues
  | .thrown _ => .thrown "Failed to create embedding."
  | .ok none => .thrown "Failed to create embedding."
  | .ok (some v) => .ok v

/-- V4's `callGemini`: the extracted candidate text (`none` when any
link of the optional chain is missing); axios errors are caught and give
`"Gemini API error."`; a falsy text gives `"No response from Gemini."`.
It never throws. -/
def callGeminiV4 : JsOutcome (Option String) → String
  | .thrown _ => "Gemini API error."
  | .ok none => "No response from Gemini."
  | .ok (some t) => if t == "" then "No response from Gemini." else t

/-- The V4 handler (`src/unnamed/part_001`): `part_000` sanitizer with
no guard, `retrieveTopK` already projected to the `text` fields,
`callGemini` swallowing generation failures, and a catch block sending
500 with `err.message` itself. -/
def handlerV4 (q : JsInput) (embedResp : JsOutcome (Option EmbedValues))
    (searchOutcome : JsOutcome (List String)) (genResp : JsOutcome (Option String)) :
    HandlerTrace :=
  match sanitizeInputV0js (jsOrEmpty q) with
  | .error m => { resp := ⟨500, [("error", m)]⟩ }
  | .ok query =>
    if query == "" then { resp := ⟨400, [("error", "Invalid input.")]⟩ }
    else
      match embedTextV4 embedResp with
      | .thrown m => { resp := ⟨500, [("error", m)]⟩, embedSent := some query }
      | .ok ev =>
        match searchOutcome with
        | .thrown m =>
          { resp := ⟨500, [("error", m)]⟩, embedSent := some query, searchVector := some ev }
        | .ok texts =>
          let context := String.intercalate "\n" texts
          let prompt := ragPromptV4 context query
          let responseText := callGeminiV4 genResp
          { resp := ⟨200, [("response", responseText)]⟩, embedSent := some query,
            searchVector := some ev, promptSent := some prompt }

/-! ## Concrete request of the spec's XSS scenario -/

/-- The raw query of the spec's sanitization scenario. -/
def xssQuery : String := "<script>alert(1)</script> What weapon does Shade use?"

/-- What `server.js`'s sanitizer actually produces on `xssQuery`. -/
def xssSanitized : String := "alert1 What weapon does Shade use?"

/-- What the spec says the sanitizer produces on `xssQuery`. -/
def xssClaimed : String := "scriptalert1script What weapon does Shade use"

/-- The standard Gemini quota-exhaustion error message: the API error
payload whose `status` is `RESOURCE_EXHAUSTED`, embedded as JSON in
`err.message` (the shape V3's catch block tries to parse). -/
def resourceExhaustedMsg : String :=
  "got status: 429 . \x7b\"error\":\x7b\"code\":429,\"message\":\"Quota exceeded\",\"status\":\"RESOURCE_EXHAUSTED\"\x7d\x7d"

/-! ## List helper lemmas -/

theorem mem_dropWhile {p : Char → Bool} {c : Char} :
    ∀ {l : List Char}, c ∈ l.dropWhile p → c ∈ l := by
  intro l
  induction l with
  | nil => intro h; simp at h
  | cons a as ih =>
    intro h
    rw [List.dropWhile_cons] at h
    by_cases hp : p a = true
    · rw [if_pos hp] at h
      exact List.mem_cons_of_mem a (ih h)
    · rw [if_neg hp] at h
      exact h

theorem length_dropWhile {p : Char → Bool} :
    ∀ (l : List Char), (l.dropWhile p).length ≤ l.length := by
  intro l
  induction l with
  | nil => simp
  | cons a as ih =>
    rw [List.dropWhile_cons]
    by_cases hp : p a = true
    · rw [if_pos hp]
      exact Nat.le_trans ih (by simp)
    · rw [if_neg hp]

theorem head?_dropWhile {p : Char → Bool} :
    ∀ {l : List Char} {c : Char} {t : List Char}, l.dropWhile p = c :: t → p c = false := by
  intro l
  induction l with
  | nil => intro c t h; simp at h
  | cons a as ih =>
    intro c t h
    rw [List.dropWhile_cons] at h
    by_cases hp : p a = true
    · rw [if_pos hp] at h
      exact ih h
    · rw [if_neg hp] at h
      injection h with h1 h2
      subst h1
      exact Bool.not_eq_true _ ▸ Bool.of_not_eq_true hp

theorem dropWhile_dropWhile {p : Char → Bool} (l : List Char) :
    (l.dropWhile p).dropWhile p = l.dropWhile p := by
  cases h : l.dropWhile p with
  | nil => simp
  | cons c t =>
    rw [List.dropWhile_cons, if_neg]
    rw [head?_dropWhile h]
    simp

theorem getLast?_dropWhile {p : Char → Bool} :
    ∀ (l : List Char), l.dropWhile p ≠ [] → (l.dropWhile p).getLast? = l.getLast? := by
  intro l
  induction l with
  | nil => intro h; simp at h
  | cons a as ih =>
    intro h
    rw [List.dropWhile_cons] at h ⊢
    by_cases hp : p a = true
    · rw [if_pos hp] at h ⊢
      rw [ih h]
      cases as with
      | nil => exact absurd (by simp [List.dropWhile]) h
      | cons b bs => rw [List.getLast?_cons_cons]
    · rw [if_neg hp]

theorem mem_trimList {c : Char} {l : List Char} (h : c ∈ trimList l) : c ∈ l := by
  unfold trimList at h
  rw [List.mem_reverse] at h
  have h2 := mem_dropWhile h
  rw [List.mem_reverse] at h2
  exact mem_dropWhile h2

theorem trimList_length (l : List Char) : (trimList l).length ≤ l.length := by
  unfold trimList
  rw [List.length_reverse]
  calc ((l.dropWhile jsWhitespace).reverse.dropWhile jsWhitespace).length
      ≤ (l.dropWhile jsWhitespace).reverse.length := length_dropWhile _
    _ = (l.dropWhile jsWhitespace).length := List.length_reverse _
    _ ≤ l.length := length_dropWhile _

theorem trimList_fix {l : List Char} (h1 : l.dropWhile jsWhitespace = l)
    (h2 : l.reverse.dropWhile jsWhitespace = l.reverse) : trimList l = l := by
  unfold trimList
  rw [h1, h2, List.reverse_reverse]

theorem trimList_idem (l : List Char) : trimList (trimList l) = trimList l := by
  have key : (trimList l).reverse = (l.dropWhile jsWhitespace).reverse.dropWhile jsWhitespace := by
    unfold trimList
    rw [List.reverse_reverse]
  have h1 : (trimList l).dropWhile jsWhitespace = trimList l := by
    cases ht : trimList l with
    | nil => rfl
    | cons c t =>
      have hdm : ((l.dropWhile jsWhitespace).reverse.dropWhile jsWhitespace) ≠ [] := by
        intro he
        have h0 : trimList l = [] := by
          unfold trimList
          rw [he]
          rfl
        rw [ht] at h0
        exact absurd h0 (by simp)
      have hc : ((l.dropWhile jsWhitespace).reverse.dropWhile jsWhitespace).getLast?
          = (l.dropWhile jsWhitespace).reverse.getLast? := getLast?_dropWhile _ hdm
      rw [List.getLast?_reverse] at hc
      have hhead : (trimList l).head? = (l.dropWhile jsWhitespace).head? := by
        unfold trimList
        rw [List.head?_reverse]
        exact hc
      rw [ht] at hhead
      cases hdl : l.dropWhile jsWhitespace with
      | nil =>
        rw [hdl] at hhead
        simp at hhead
      | cons c0 t0 =>
        rw [hdl] at hhead
        simp only [List.head?_cons] at hhead
        injection hhead with hcc
        subst hcc
        rw [List.dropWhile_cons, if_neg]
        rw [head?_dropWhile hdl]
        simp
  have h2 : (trimList l).reverse.dropWhile jsWhitespace = (trimList l).reverse := by
    rw [key]
    exact dropWhile_dropWhile _
  exact trimList_fix h1 h2

theorem filter_all {p : Char → Bool} {l : List Char} {c : Char}
    (h : c ∈ l.filter p) : p c = true :=
  (List.mem_filter.mp h).2

theorem map_eq_self_of {f : Char → Char} {l : List Char}
    (h : ∀ c ∈ l, f c = c) : l.map f = l := by
  induction l with
  | nil => rfl
  | cons a as ih =>
    rw [List.map_cons, h a (List.mem_cons_self a as), ih (fun c hc => h c (List.mem_cons_of_mem a hc))]

theorem stripTagsGo_eq_self {l : List Char}
    (h : ∀ c ∈ l, (c == '<') = false) : stripTagsGo false l = l := by
  induction l with
  | nil => rfl
  | cons a as ih =>
    rw [stripTagsGo, if_neg]
    · rw [ih (fun c hc => h c (List.mem_cons_of_mem a hc))]
    · rw [h a (List.mem_cons_self a as)]
      simp

theorem stripTags_eq_self {l : List Char}
    (h : ∀ c ∈ l, (c == '<') = false) : stripTags l = l :=
  stripTagsGo_eq_self h

theorem stripTagsGo_length : ∀ (b : Bool) (l : List Char), (stripTagsGo b l).length ≤ l.length := by
  intro b l
  induction l generalizing b with
  | nil => cases b <;> simp [stripTagsGo]
  | cons a as ih =>
    cases b with
    | true =>
      rw [stripTagsGo]
      by_cases hp : (a == '>') = true
      · rw [if_pos hp]
        exact Nat.le_trans (ih false) (by simp)
      · rw [if_neg hp]
        exact Nat.le_trans (ih true) (by simp)
    | false =>
      rw [stripTagsGo]
      by_cases hp : (a == '<') = true
      · rw [if_pos hp]
        exact Nat.le_trans (ih true) (by simp)
      · rw [if_neg hp]
        simp only [List.length_cons]
        exact Nat.succ_le_succ (ih false)

theorem stripTagsLazy_eq_self {l : List Char}
    (h : ∀ c ∈ l, (c == '<') = false) : stripTagsLazy l = l := by
  induction l with
  | nil => rfl
  | cons a as ih =>
    show stripTagsLazyGo 0 (a :: as) = a :: as
    rw [stripTagsLazyGo, if_neg]
    · rw [show stripTagsLazyGo 0 as = stripTagsLazy as from rfl]
      rw [ih (fun c hc => h c (List.mem_cons_of_mem a hc))]
    · rw [h a (List.mem_cons_self a as)]
      simp

theorem stripTagsLazyGo_length :
    ∀ (l : List Char) (k : Nat), (stripTagsLazyGo k l).length ≤ l.length := by
  intro l
  induction l with
  | nil => intro k; cases k <;> simp [stripTagsLazyGo]
  | cons a as ih =>
    intro k
    cases k with
    | succ k =>
      rw [stripTagsLazyGo]
      exact Nat.le_trans (ih k) (by simp)
    | zero =>
      rw [stripTagsLazyGo]
      by_cases ha : (a == '<') = true
      · rw [if_pos ha]
        cases hf : findTagLen as with
        | some n => exact Nat.le_trans (ih n) (by simp)
        | none =>
          simp only [List.length_cons]
          exact Nat.succ_le_succ (ih 0)
      · rw [if_neg ha]
        simp only [List.length_cons]
        exact Nat.succ_le_succ (ih 0)

theorem stripTagsLazy_length (l : List Char) : (stripTagsLazy l).length ≤ l.length :=
  stripTagsLazyGo_length l 0

/-! ## Character-class facts -/

theorem serverAllow_not_lt {c : Char} (h : serverAllow c = true) : (c == '<') = false := by
  cases hc : c == '<' with
  | false => rfl
  | true =>
    have : c = '<' := eq_of_beq hc
    subst this
    exact absurd h (by decide)

theorem structural9_not_serverAllow {c : Char} (h : structural9 c = true) :
    serverAllow c = false := by
  simp only [structural9, Bool.or_eq_true, beq_iff_eq] at h
  rcases h with ((((((((h | h) | h) | h) | h) | h) | h) | h) | h) <;> subst h <;> decide

theorem serverAllow_not_structural9 {c : Char} (h : serverAllow c = true) :
    structural9 c = false := by
  cases hs : structural9 c with
  | false => rfl
  | true => rw [structural9_not_serverAllow hs] at h; exact absurd h (by simp)

theorem v0Allow_not_lt {c : Char} (h : v0Allow c = true) : (c == '<') = false := by
  cases hc : c == '<' with
  | false => rfl
  | true =>
    have : c = '<' := eq_of_beq hc
    subst this
    exact absurd h (by decide)

theorem structural7_not_v0Allow {c : Char} (h : structural7 c = true) : v0Allow c = false := by
  simp only [structural7, Bool.or_eq_true, beq_iff_eq] at h
  rcases h with ((((((h | h) | h) | h) | h) | h) | h) <;> subst h <;> decide

theorem v0Allow_not_structural7 {c : Char} (h : v0Allow c = true) : structural7 c = false := by
  cases hs : structural7 c with
  | false => rfl
  | true => rw [structural7_not_v0Allow hs] at h; exact absurd h (by simp)

theorem structural9_not_v0Allow {c : Char} (h : structural9 c = true) : v0Allow c = false := by
  simp only [structural9, Bool.or_eq_true, beq_iff_eq] at h
  rcases h with ((((((((h | h) | h) | h) | h) | h) | h) | h) | h) <;> subst h <;> decide

theorem v0Allow_not_structural9 {c : Char} (h : v0Allow c = true) : structural9 c = false := by
  cases hs : structural9 c with
  | false => rfl
  | true => rw [structural9_not_v0Allow hs] at h; exact absurd h (by simp)

theorem v0Allow_claimAllow_or_underscore {c : Char} (h : v0Allow c = true) :
    (claimAllow c || c == '_') = true := by
  cases hu : c == '_' with
  | true => simp [hu]
  | false =>
    rw [Bool.or_eq_true]
    left
    simp only [v0Allow, isWordChar, Bool.or_eq_true] at h
    simp only [claimAllow, punctAllowed, Bool.or_eq_true]
    rcases h with (((((((hs | ((hl | hd) | hu2)) | hw) | h1) | h2) | h3) | h4) | h5)
    · have : c = ' ' := eq_of_beq hs
      subst this
      decide
    · exact Or.inl (Or.inl (Or.inl hl))
    · exact Or.inl (Or.inl (Or.inr hd))
    · rw [hu2] at hu
      exact absurd hu (by simp)
    · exact Or.inl (Or.inr hw)
    · have : c = '.' := eq_of_beq h1
      subst this
      decide
    · have : c = ',' := eq_of_beq h2
      subst this
      decide
    · have : c = '!' := eq_of_beq h3
      subst this
      decide
    · have : c = '\x27' := eq_of_beq h4
      subst this
      decide
    · have : c = '-' := eq_of_beq h5
      subst this
      decide

/-! ## Output invariants of the two sanitizers -/

theorem sanitizeList_allowed {l : List Char} {c : Char}
    (h : c ∈ sanitizeList l) : serverAllow c = true := by
  unfold sanitizeList at h
  exact filter_all (mem_trimList h)

theorem sanitizeListV0_allowed {l : List Char} {c : Char}
    (h : c ∈ sanitizeListV0 l) : v0Allow c = true := by
  unfold sanitizeListV0 at h
  have h2 := mem_trimList h
  rw [List.mem_map] at h2
  obtain ⟨a, _, ha⟩ := h2
  by_cases hv : v0Allow a = true
  · rw [if_pos hv] at ha
    subst ha
    exact hv
  · rw [if_neg hv] at ha
    subst ha
    decide

theorem sanitizeList_fix {x : List Char}
    (hall : ∀ c ∈ x, serverAllow c = true) (htr : trimList x = x) : sanitizeList x = x := by
  unfold sanitizeList
  rw [stripTags_eq_self (fun c hc => serverAllow_not_lt (hall c hc))]
  rw [(@List.filter_eq_self Char (fun c => !structural9 c) x).mpr (fun c hc => by
    have h9 := serverAllow_not_structural9 (hall c hc)
    simp [h9])]
  rw [(@List.filter_eq_self Char serverAllow x).mpr hall]
  exact htr

theorem sanitizeListV0_fix {x : List Char}
    (hall : ∀ c ∈ x, v0Allow c = true) (htr : trimList x = x) : sanitizeListV0 x = x := by
  unfold sanitizeListV0
  rw [stripTagsLazy_eq_self (fun c hc => v0Allow_not_lt (hall c hc))]
  rw [(@List.filter_eq_self Char (fun c => !structural7 c) x).mpr (fun c hc => by
    have h7 := v0Allow_not_structural7 (hall c hc)
    simp [h7])]
  rw [map_eq_self_of (fun c hc => by rw [if_pos (hall c hc)])]
  exact htr

theorem sanitizeList_idem (l : List Char) : sanitizeList (sanitizeList l) = sanitizeList l := by
  apply sanitizeList_fix (fun c hc => sanitizeList_allowed hc)
  unfold sanitizeList
  exact trimList_idem _

theorem sanitizeListV0_idem (l : List Char) :
    sanitizeListV0 (sanitizeListV0 l) = sanitizeListV0 l := by
  apply sanitizeListV0_fix (fun c hc => sanitizeListV0_allowed hc)
  unfold sanitizeListV0
  exact trimList_idem _

theorem sanitizeList_length (l : List Char) : (sanitizeList l).length ≤ l.length := by
  unfold sanitizeList
  calc (trimList (((stripTags l).filter (fun c => !structural9 c)).filter serverAllow)).length
      ≤ (((stripTags l).filter (fun c => !structural9 c)).filter serverAllow).length :=
        trimList_length _
    _ ≤ ((stripTags l).filter (fun c => !structural9 c)).length := List.length_filter_le _ _
    _ ≤ (stripTags l).length := List.length_filter_le _ _
    _ ≤ l.length := stripTagsGo_length false l

theorem sanitizeListV0_length (l : List Char) : (sanitizeListV0 l).length ≤ l.length := by
  unfold sanitizeListV0
  calc (trimList (((stripTagsLazy l).filter (fun c => !structural7 c)).map
          (fun c => if v0Allow c then c else ' '))).length
      ≤ (((stripTagsLazy l).filter (fun c => !structural7 c)).map
          (fun c => if v0Allow c then c else ' ')).length := trimList_length _
    _ = ((stripTagsLazy l).filter (fun c => !structural7 c)).length := List.length_map _ _
    _ ≤ (stripTagsLazy l).length := List.length_filter_le _ _
    _ ≤ l.length := stripTagsLazy_length l

/-! ## Handler helper lemmas -/

theorem handlerV3_embedSent (q : JsInput) (eo : JsOutcome EmbedValues)
    (so : JsOutcome (List DocR)) (go : JsOutcome (Option String))
    (h : (sanitizeInputGuarded q == "") = false) :
    (handlerV3 q eo so go).embedSent = some (sanitizeInputGuarded q) := by
  simp only [handlerV3, h, Bool.false_eq_true, if_false]
  cases eo with
  | thrown m => rfl
  | ok ev =>
    by_cases hv : validEmbedding ev = true
    · simp only [hv, if_true]
      cases so with
      | thrown m => rfl
      | ok docs =>
        cases go with
        | thrown m => rfl
        | ok t =>
          cases t with
          | none => rfl
          | some s =>
            dsimp only
            by_cases hs : (s == "") = true
            · rw [if_pos hs]
            · rw [if_neg hs]
    · dsimp only
      rw [if_neg hv]

/-! ## Claim theorems -/

/-- C1, counterexample: on the input
`"<script>alert(1)</script> What weapon does Shade use?"` neither
sanitizer variant produces anything equivalent to
`"scriptalert1script What weapon does Shade use"`: the tag-stripping pass
removes the whole `<script>`/`</script>` tags (including the word
`script`), so the actual outputs do not contain `script` at all. -/
theorem c1_xss_counterexample :
    sanitizeInput xssQuery = xssSanitized ∧
    sanitizeInputV0 xssQuery = "alert1 What weapon does Shade use" ∧
    sanitizeInput xssQuery ≠ xssClaimed ∧
    sanitizeInputV0 xssQuery ≠ xssClaimed ∧
    jsIncludes xssClaimed "script" = true ∧
    jsIncludes (sanitizeInput xssQuery) "script" = false := by
  refine ⟨rfl, rfl, by decide, by decide, by decide, by decide⟩

/-- C1, amended: the sanitizer output on the XSS query is
`"alert1 What weapon does Shade use?"` (`server.js` variants;
`part_000`'s variant also drops the `?`), exactly this sanitized string
is sent to the embedding step by the V3 handler whatever the providers
do, it is the string interpolated into the prompt, and it contains no raw
`<script>` tag (indeed no `<` at all). -/
theorem c1_xss_amended :
    sanitizeInput xssQuery = xssSanitized ∧
    sanitizeInputV0 xssQuery = "alert1 What weapon does Shade use" ∧
    jsIncludes xssSanitized "<script>" = false ∧
    jsIncludes xssSanitized "<" = false ∧
    (∀ (eo : JsOutcome EmbedValues) (so : JsOutcome (List DocR)) (go : JsOutcome (Option String)),
      (handlerV3 (JsInput.str xssQuery) eo so go).embedSent = some xssSanitized) ∧
    (handlerV3 (JsInput.str xssQuery) (.ok (.arr [1])) (.ok [])
        (.ok (some "lore answer"))).promptSent = some (ragPromptV3 "" xssSanitized) := by
  refine ⟨rfl, rfl, by decide, by decide, ?_, rfl⟩
  intro eo so go
  have h : (sanitizeInputGuarded (JsInput.str xssQuery) == "") = false := by decide
  have h2 : sanitizeInputGuarded (JsInput.str xssQuery) = xssSanitized := rfl
  rw [handlerV3_embedSent _ eo so go h, h2]

/-- C2, counterexample: with the generation provider returning empty
text, the V1 handler (and likewise V2 and V4) responds 200, not 500: V1
and V2 send the empty text verbatim, V4 substitutes its fallback string.
Only the V3 variant turns empty generated text into a 500. -/
theorem c2_empty_generation_counterexample :
    (handlerV1 (JsInput.str "hi") (.ok (some (.arr [1])))
        (.ok [{ text := "T", scoreText := "0.90" }]) (.ok "")).resp
      = ⟨200, [("response", "")]⟩ ∧
    (handlerV2 (JsInput.str "hi") (.ok (some (.arr [1])))
        (.ok [{ text := "T", scoreText := "0.90" }]) (.ok "")).resp
      = ⟨200, [("response", "")]⟩ ∧
    (handlerV4 (JsInput.str "hi") (.ok (some (.arr [1]))) (.ok []) (.ok (some ""))).resp
      = ⟨200, [("response", "No response from Gemini.")]⟩ := by
  refine ⟨by decide, by decide, by decide⟩

/-- C2, amended: only the V3 handler responds 500 with the
internal-processing-failure body when the generation provider returns
empty (or missing) text; the V1 and V2 handlers respond 200 carrying the
empty text, and the V4 handler responds 200 with a fallback message. -/
theorem c2_empty_generation_amended :
    ∀ (xs : List Int) (docs : List DocR) (texts : List String),
    (xs.length == 0) = false → (docs.length == 0) = false →
    (handlerV3 (JsInput.str "hi") (.ok (.arr xs)) (.ok docs) (.ok (some ""))).resp =
      ⟨500, [("error", "Internal AI Processing Failure"),
             ("message", "Please contact the server administrator with screenshot.")]⟩ ∧
    (handlerV3 (JsInput.str "hi") (.ok (.arr xs)) (.ok docs) (.ok none)).resp =
      ⟨500, [("error", "Internal AI Processing Failure"),
             ("message", "Please contact the server administrator with screenshot.")]⟩ ∧
    (handlerV1 (JsInput.str "hi") (.ok (some (.arr xs))) (.ok docs) (.ok "")).resp =
      ⟨200, [("response", "")]⟩ ∧
    (handlerV2 (JsInput.str "hi") (.ok (some (.arr xs))) (.ok docs) (.ok "")).resp =
      ⟨200, [("response", "")]⟩ ∧
    (handlerV4 (JsInput.str "hi") (.ok (some (.arr xs))) (.ok texts) (.ok (some ""))).resp =
      ⟨200, [("response", "No response from Gemini.")]⟩ := by
  intro xs docs texts h1 h2
  have hq3 : sanitizeInputGuarded (JsInput.str "hi") = "hi" := rfl
  have hq1 : sanitizeInputV1js (jsOrEmpty (JsInput.str "hi")) = .ok "hi" := rfl
  have hq2 : sanitizeInputGuarded (jsOrEmpty (JsInput.str "hi")) = "hi" := rfl
  have hq4 : sanitizeInputV0js (jsOrEmpty (JsInput.str "hi")) = .ok "hi" := rfl
  refine ⟨?_, ?_, ?_, ?_, ?_⟩
  · simp only [handlerV3, validEmbedding, h1, h2, hq3, Bool.not_false, if_true,
      Bool.false_eq_true, if_false]
    rw [if_neg (by decide)]
    rw [if_pos (by decide)]
    dsimp only
    decide
  · simp only [handlerV3, validEmbedding, h1, h2, hq3, Bool.not_false, if_true,
      Bool.false_eq_true, if_false]
    rw [if_neg (by decide)]
    dsimp only
    decide
  · simp only [handlerV1, hq1, h2, Bool.false_eq_true, if_false]
    rw [if_neg (by decide)]
  · simp only [handlerV2, hq2, h2, Bool.false_eq_true, if_false]
    rw [if_neg (by decide)]
  · simp only [handlerV4, embedTextV4, callGeminiV4, hq4, Bool.false_eq_true, if_false]
    rw [if_neg (by decide)]
    rw [if_pos (by decide)]

/-- C2, witness for the amended theorem at a concrete non-empty vector
and document list. -/
theorem c2_empty_generation_amended_witness :
    (([(1 : Int)].length == 0) = false) ∧
    (([({ text := "T", scoreText := "0.90" } : DocR)].length == 0) = false) ∧
    (handlerV1 (JsInput.str "hi") (.ok (some (.arr [1])))
        (.ok [{ text := "T", scoreText := "0.90" }]) (.ok "")).resp =
      ⟨200, [("response", "")]⟩ :=
  ⟨by decide, by decide,
    (c2_empty_generation_amended [1] [{ text := "T", scoreText := "0.90" }] []
      (by decide) (by decide)).2.2.1⟩

/-- C3: with the vector search returning zero documents, each handler
variant responds in a fixed way, with no unhandled exception (each
model handler is a total function): V1 and V2 respond 404 with their
no-information messages; V3 and V4 proceed with an empty context
(visible in the prompt they send) and respond 200 with the generated
answer. -/
theorem c3_zero_docs_policy : ∀ (xs : List Int) (t : String),
    (xs.length == 0) = false → (t == "") = false →
    (handlerV1 (JsInput.str "hi") (.ok (some (.arr xs))) (.ok []) (.ok t)).resp =
      ⟨404, [("response", "No relevant information found.")]⟩ ∧
    (handlerV2 (JsInput.str "hi") (.ok (some (.arr xs))) (.ok []) (.ok t)).resp =
      ⟨404, [("response", "I couldn\x27t find any relevant information for that query.")]⟩ ∧
    (handlerV3 (JsInput.str "hi") (.ok (.arr xs)) (.ok []) (.ok (some t))).resp =
      ⟨200, [("response", t)]⟩ ∧
    (handlerV3 (JsInput.str "hi") (.ok (.arr xs)) (.ok []) (.ok (some t))).promptSent =
      some (ragPromptV3 "" "hi") ∧
    (handlerV4 (JsInput.str "hi") (.ok (some (.arr xs))) (.ok []) (.ok (some t))).resp =
      ⟨200, [("response", t)]⟩ ∧
    (handlerV4 (JsInput.str "hi") (.ok (some (.arr xs))) (.ok []) (.ok (some t))).promptSent =
      some (ragPromptV4 "" "hi") := by
  intro xs t h1 h2
  have hq3 : sanitizeInputGuarded (JsInput.str "hi") = "hi" := rfl
  have hq1 : sanitizeInputV1js (jsOrEmpty (JsInput.str "hi")) = .ok "hi" := rfl
  have hq2 : sanitizeInputGuarded (jsOrEmpty (JsInput.str "hi")) = "hi" := rfl
  have hq4 : sanitizeInputV0js (jsOrEmpty (JsInput.str "hi")) = .ok "hi" := rfl
  refine ⟨?_, ?_, ?_, ?_, ?_, ?_⟩
  · simp only [handlerV1, hq1]
    rw [if_neg (by decide)]
    rw [if_pos (by decide)]
  · simp only [handlerV2, hq2]
    rw [if_neg (by decide)]
    rw [if_pos (by decide)]
  · simp only [handlerV3, validEmbedding, h1, hq3, Bool.not_false, if_true]
    rw [if_neg (by decide)]
    rw [if_neg (by simp [h2])]
  · simp only [handlerV3, validEmbedding, h1, hq3, Bool.not_false, if_true]
    rw [if_neg (by decide)]
    rw [if_neg (by simp [h2])]
    rfl
  · simp only [handlerV4, embedTextV4, callGeminiV4, hq4, h2, Bool.false_eq_true, if_false]
    rw [if_neg (by decide)]
  · simp only [handlerV4, embedTextV4, callGeminiV4, hq4, Bool.false_eq_true, if_false]
    rw [if_neg (by decide)]
    rfl

/-- C3, witness at a concrete vector and generated answer. -/
theorem c3_zero_docs_policy_witness :
    (([(1 : Int)].length == 0) = false) ∧ (("An answer." == "") = false) ∧
    (handlerV1 (JsInput.str "hi") (.ok (some (.arr [1]))) (.ok []) (.ok "An answer.")).resp =
      ⟨404, [("response", "No relevant information found.")]⟩ :=
  ⟨by decide, by decide,
    (c3_zero_docs_policy [1] "An answer." (by decide) (by decide)).1⟩

/-- C4, counterexample: the `sanitizeInput` of `server.js` section 1 and
the one of `part_000` have no type guard, so calling them on the number
42 throws a `TypeError` instead of returning an empty result. -/
theorem c4_nonstring_counterexample :
    sanitizeInputV1js (JsInput.num 42) = .error "text.replace is not a function" ∧
    sanitizeInputV0js (JsInput.num 42) = .error "text.replace is not a function" :=
  ⟨rfl, rfl⟩

/-- C4, amended: the guarded `sanitizeInput` of `server.js` sections 2
and 3 returns the empty string on every non-string input without
throwing; the unguarded variants (section 1 of `server.js`, and
`part_000`) throw a `TypeError` on numbers, `null` and `undefined`. -/
theorem c4_nonstring_amended : ∀ (n : Int),
    sanitizeInputGuarded (JsInput.num n) = "" ∧
    sanitizeInputGuarded JsInput.jsNull = "" ∧
    sanitizeInputGuarded JsInput.jsUndef = "" ∧
    sanitizeInputV1js (JsInput.num n) = .error "text.replace is not a function" ∧
    sanitizeInputV1js JsInput.jsNull =
      .error "Cannot read properties of null (reading 'replace')" ∧
    sanitizeInputV1js JsInput.jsUndef =
      .error "Cannot read properties of undefined (reading 'replace')" ∧
    sanitizeInputV0js (JsInput.num n) = .error "text.replace is not a function" :=
  fun n => ⟨rfl, rfl, rfl, rfl, rfl, rfl, rfl⟩

/-- C5, counterexample: when the embedding response carries an empty
`values` array, the V1 handler (no validity check; V2 and V4 behave the
same) hands that empty vector straight to the vector-search call instead
of failing first. -/
theorem c5_empty_vector_counterexample :
    validEmbedding (.arr []) = false ∧
    (handlerV1 (JsInput.str "hi") (.ok (some (.arr []))) (.ok []) (.ok "t")).searchVector =
      some (.arr []) ∧
    (handlerV2 (JsInput.str "hi") (.ok (some (.arr []))) (.ok []) (.ok "t")).searchVector =
      some (.arr []) ∧
    (handlerV4 (JsInput.str "hi") (.ok (some (.arr []))) (.ok []) (.ok (some "t"))).searchVector =
      some (.arr []) :=
  ⟨rfl, rfl, rfl, rfl⟩

/-- C5, amended: the V3 handler alone implements the check: on an empty,
missing or non-array `values` it responds 500 with the
internal-processing-failure body and never invokes the vector search;
in V1, V2 and V4 a missing embedding object still ends in a 500, but an
empty (or non-numeric) array is forwarded unchecked to the search. -/
theorem c5_embedding_guard_amended :
    ∀ (ev : EmbedValues) (so : JsOutcome (List DocR)) (go : JsOutcome (Option String)),
    validEmbedding ev = false →
    (handlerV3 (JsInput.str "hi") (.ok ev) so go).resp =
      ⟨500, [("error", "Internal AI Processing Failure"),
             ("message", "Please contact the server administrator with screenshot.")]⟩ ∧
    (handlerV3 (JsInput.str "hi") (.ok ev) so go).searchVector = none ∧
    (handlerV1 (JsInput.str "hi") (.ok none) so (.ok "t")).resp = err500generic ∧
    (handlerV1 (JsInput.str "hi") (.ok none) so (.ok "t")).searchVector = none := by
  intro ev so go hv
  have hq3 : sanitizeInputGuarded (JsInput.str "hi") = "hi" := rfl
  have hq1 : sanitizeInputV1js (jsOrEmpty (JsInput.str "hi")) = .ok "hi" := rfl
  refine ⟨?_, ?_, ?_, ?_⟩
  · simp only [handlerV3, hv, hq3, Bool.false_eq_true, if_false]
    rw [if_neg (by decide)]
    dsimp only
    decide
  · simp only [handlerV3, hv, hq3, Bool.false_eq_true, if_false]
    rw [if_neg (by decide)]
  · simp only [handlerV1, hq1]
    rw [if_neg (by decide)]
  · simp only [handlerV1, hq1]
    rw [if_neg (by decide)]

/-- C5, witness for the amended theorem at the empty vector. -/
theorem c5_embedding_guard_amended_witness :
    validEmbedding (.arr []) = false ∧
    (handlerV3 (JsInput.str "hi") (.ok (.arr [])) (.ok []) (.ok (some "t"))).searchVector
      = none :=
  ⟨by decide,
    (c5_embedding_guard_amended (.arr []) (.ok []) (.ok (some "t")) (by decide)).2.1⟩

/-- C6: the claim is right and the code wrong. The V3 catch block is the
only place meant to map `RESOURCE_EXHAUSTED` to 429, but its extraction
regex `/(\{.*?\})/s` is lazy, so on the standard nested vendor payload it
captures an unbalanced prefix of the JSON, `JSON.parse` throws, the
status stays `null`, and the switch falls to the default 500. The V4
handler even swallows the error inside `callGemini` and responds 200,
and V1/V2 respond with their generic 500. -/
theorem c6_resource_exhausted_code_bug :
    extractApiStatus resourceExhaustedMsg = none ∧
    jsIncludes resourceExhaustedMsg "RESOURCE_EXHAUSTED" = true ∧
    (handlerV3 (JsInput.str "hi") (.ok (.arr [1])) (.ok []) (.thrown resourceExhaustedMsg)).resp =
      ⟨500, [("error", "Internal Server Error"),
             ("message", "An unexpected error occurred. Please try your query again after a short delay.")]⟩ ∧
    (handlerV4 (JsInput.str "hi") (.ok (some (.arr [1]))) (.ok [])
        (.thrown resourceExhaustedMsg)).resp = ⟨200, [("response", "Gemini API error.")]⟩ ∧
    (handlerV1 (JsInput.str "hi") (.ok (some (.arr [1])))
        (.ok [{ text := "T", scoreText := "0.90" }]) (.thrown resourceExhaustedMsg)).resp =
      err500generic := by
  refine ⟨by decide, by decide, by decide, by decide, by decide⟩

/-- C7, counterexample: `part_000`'s sanitizer uses `\w`, which also
admits the underscore, a character outside the spec's allow-set
{letters, digits, whitespace, `. , ! ? ' -`}: on `"a_b"` its output still
contains `_`. -/
theorem c7_allowset_counterexample :
    sanitizeInputV0 "a_b" = "a_b" ∧
    (sanitizeInputV0 "a_b").data.all claimAllow = false ∧
    claimAllow '_' = false :=
  ⟨rfl, by decide, by decide⟩

/-- C7, amended: every character of the `server.js` sanitizer's output
lies in the spec's allow-set; the `part_000` variant guarantees only the
allow-set extended with the underscore (and it additionally drops `?`,
which its step-3 class omits). -/
theorem c7_allowset_amended : ∀ s : String,
    (sanitizeInput s).data.all claimAllow = true ∧
    (sanitizeInputV0 s).data.all (fun c => claimAllow c || c == '_') = true := by
  intro s
  constructor
  · rw [List.all_eq_true]
    intro c hc
    exact sanitizeList_allowed hc
  · rw [List.all_eq_true]
    intro c hc
    exact v0Allow_claimAllow_or_underscore (sanitizeListV0_allowed hc)

/-- C8: for every input string, the output of both sanitizer variants
contains none of the nine characters `{ } [ ] ( ) ; < >` (so in
particular no `<...>` sequence survives). In `server.js` step 2 removes
all nine; in `part_000` step 2 removes seven of them and step 3 turns
`<` and `>` into spaces. -/
theorem c8_structural_removed : ∀ s : String,
    (sanitizeInput s).data.all (fun c => !structural9 c) = true ∧
    (sanitizeInputV0 s).data.all (fun c => !structural9 c) = true := by
  intro s
  constructor
  · rw [List.all_eq_true]
    intro c hc
    have h9 := serverAllow_not_structural9 (sanitizeList_allowed hc)
    simp [h9]
  · rw [List.all_eq_true]
    intro c hc
    have h9 := v0Allow_not_structural9 (sanitizeListV0_allowed hc)
    simp [h9]

/-- C9: both sanitizer variants are idempotent: a second application
changes nothing, for every input string. -/
theorem c9_sanitize_idempotent : ∀ s : String,
    sanitizeInput (sanitizeInput s) = sanitizeInput s ∧
    sanitizeInputV0 (sanitizeInputV0 s) = sanitizeInputV0 s := by
  intro s
  exact ⟨congrArg String.mk (sanitizeList_idem s.data),
    congrArg String.mk (sanitizeListV0_idem s.data)⟩

/-- C10: both sanitizer variants never lengthen their input: every pass
deletes characters, substitutes one character for one character, or
trims. -/
theorem c10_length_nonincreasing : ∀ s : String,
    (sanitizeInput s).length ≤ s.length ∧ (sanitizeInputV0 s).length ≤ s.length := by
  intro s
  exact ⟨sanitizeList_length s.data, sanitizeListV0_length s.data⟩
